import Mathlib

/-!
Verification of the AI-orchestration and function-calling core of the
`home_assistant` repository: a shallow embedding in Lean 4 of the function
registry (`apis/decorators.py`), the executor (`apis/executor.py`), the
provider-schema generators (`ai/function_prompts.py`), the confidence
scoring and response dataclass (`ai/base_provider.py`), and the orchestrator
(`ai/orchestrator.py`), together with theorems settling the specification
claims about them.

Python dictionaries are embedded as association lists (insertion ordered,
update-in-place on an existing key, as CPython dicts behave), Python `Any`
values as the inductive `PyVal`, exceptions as `Except String`, and the two
AI backends as abstract oracles with the interface the orchestrator calls
(`chat_with_functions`, `simple_chat`); the concrete provider classes
implementing that interface are not part of the sources, so their interface
is modelled from the spec while every orchestrator-side decision is
translated from `orchestrator.py`.
-/

namespace HomeAssistant

/-- Embedding of Python `Any` values as they occur in this code base:
strings, integers, booleans, `None`, dicts and lists. -/
inductive PyVal where
  | str (s : String)
  | int (n : Int)
  | bool (b : Bool)
  | none
  | dict (kvs : List (String × PyVal))
  | list (xs : List PyVal)

mutual

/-- Python `repr` of a value: strings are quoted, dict and list items are
rendered with `repr` recursively (a brace is written with an escape). -/
def pyRepr : PyVal → String
  | .str s => "\x27" ++ s ++ "\x27"
  | .int n => toString n
  | .bool b => if b then "True" else "False"
  | .none => "None"
  | .dict kvs => "\x7b" ++ String.intercalate ", " (pyReprKVs kvs) ++ "\x7d"
  | .list xs => "[" ++ String.intercalate ", " (pyReprList xs) ++ "]"

/-- Rendering of the key-value pairs of a dict for `pyRepr`. -/
def pyReprKVs : List (String × PyVal) → List String
  | [] => []
  | (k, v) :: rest => ("\x27" ++ k ++ "\x27: " ++ pyRepr v) :: pyReprKVs rest

/-- Rendering of the elements of a list for `pyRepr`. -/
def pyReprList : List PyVal → List String
  | [] => []
  | v :: rest => pyRepr v :: pyReprList rest

end

/-- Python `str` of a value: like `repr` except that a top-level string is
rendered without quotes (as in an f-string interpolation). -/
def pyStr : PyVal → String
  | .str s => s
  | v => pyRepr v

/-- Lookup in an association list, the embedding of Python `d[k]` / `k in d`. -/
def lookupKey {α : Type} (m : List (String × α)) (k : String) : Option α :=
  match m with
  | [] => Option.none
  | (k', v) :: rest => if k' = k then some v else lookupKey rest k

/-- Embedding of Python `d.get(k, dflt)`. -/
def getKeyD {α : Type} (m : List (String × α)) (k : String) (dflt : α) : α :=
  (lookupKey m k).getD dflt

/-- Embedding of Python `d[k] = v` on a dict: updates the value in place when
the key exists (keeping its position, as CPython does) and appends otherwise. -/
def setKey {α : Type} (m : List (String × α)) (k : String) (v : α) :
    List (String × α) :=
  if (lookupKey m k).isSome then
    m.map (fun kv => if kv.1 = k then (k, v) else kv)
  else
    m ++ [(k, v)]

/-- The intent enum of `ai/base_provider.py` (`IntentType`). -/
inductive IntentType where
  | api_call
  | chat
  | unknown
deriving Repr, DecidableEq

/-- Fields of the `AIResponse` dataclass of `ai/base_provider.py` exactly as
declared, before `__post_init__` runs: `entities` and `raw_response` default
to `None`, embedded as `Option`. Confidence is embedded as a rational. -/
structure AIResponseInit where
  text : String
  intent : IntentType
  confidence : ℚ
  entities : Option (List (String × PyVal)) := Option.none
  raw_response : Option (List (String × PyVal)) := Option.none

namespace AIResponseInit

/-- Embedding of `AIResponse.__post_init__`: a `None` in `entities` or
`raw_response` is replaced by an empty dict. -/
def postInit (r : AIResponseInit) : AIResponseInit :=
  let r := if r.entities.isNone then { r with entities := some [] } else r
  if r.raw_response.isNone then { r with raw_response := some [] } else r

end AIResponseInit

/-- Boolean test that `needle` occurs as a contiguous run inside `hay`,
the embedding of the Python `in` operator on strings. -/
def charsContain (hay needle : List Char) : Bool :=
  match hay with
  | [] => needle.isEmpty
  | _ :: t => needle.isPrefixOf hay || charsContain t needle

/-- String containment, embedding Python `needle in hay`. -/
def strContains (hay needle : String) : Bool :=
  charsContain hay.toList needle.toList

/-- The error-indicator vocabulary of
`BaseAIProvider._calculate_response_confidence`, in source order. -/
def errorIndicators : List String :=
  ["error", "sorry", "cannot", "unable", "unavailable"]

/-- Embedding of `any(indicator in response_text.lower() for indicator in
error_indicators)`. -/
def hasErrorIndicator (responseText : String) : Bool :=
  errorIndicators.any (fun indicator => strContains responseText.toLower indicator)

/-- Embedding of `BaseAIProvider._calculate_response_confidence` from
`ai/base_provider.py`. Python floats are embedded as rationals. A
`finish_reason` of `None` and of the empty string both fail the source's
`if finish_reason:` truthiness guard; the empty string also matches none of
the compared values, so the two cases land in the same no-penalty branch. -/
def calculateResponseConfidence (responseText : String)
    (finishReason : Option String) : ℚ :=
  let baseConfidence : ℚ := 8/10
  let lengthFactor : ℚ := min 1 ((responseText.length : ℚ) / 100)
  let baseConfidence :=
    if lengthFactor < 1/10 then baseConfidence - 3/10
    else if lengthFactor > 5 then baseConfidence - 1/10
    else baseConfidence
  let baseConfidence :=
    match finishReason with
    | Option.none => baseConfidence
    | some r =>
        if r = "length" then baseConfidence - 2/10
        else if r = "content_filter" ∨ r = "stop_sequence" then baseConfidence - 4/10
        else baseConfidence
  let baseConfidence :=
    if hasErrorIndicator responseText then baseConfidence - 2/10 else baseConfidence
  max (1/10) (min (95/100) baseConfidence)

/-- Parameter metadata stored in an `APIDefinition` of `apis/decorators.py`:
the value of `parameters[param_name]`, a dict with keys `type`, `required`,
`default` and `description`, always populated by the `api_method` decorator
(so the `.get` calls reading it with a fallback never see a missing key for
definitions built by registration). -/
structure ParamInfo where
  type : String
  required : Bool
  default : Option PyVal
  description : String

/-- The `APIDefinition` dataclass of `apis/decorators.py`, minus the `method`
callable (invocation goes through the target object, as in the executor). -/
structure APIDefinition where
  name : String
  description : String
  parameters : List (String × ParamInfo)

/-- A formal parameter of a Python function signature as `inspect` reports
it to the `api_method` decorator: its name, its annotated type name, its
default value (`Option.none` embeds `inspect.Parameter.empty`), and the
description that `extract_param_description` recovers from the docstring. -/
structure PyParam where
  name : String
  pyType : String
  default : Option PyVal
  docDescription : String

/-- Embedding of the parameter-introspection loop of the `api_method`
decorator: `self` is skipped, `required` is true exactly when no default is
declared, and the default is kept as-is (`None` when absent). -/
def deriveParameters (params : List PyParam) : List (String × ParamInfo) :=
  (params.filter (fun p => p.name ≠ "self")).map
    (fun p =>
      (p.name,
        { type := p.pyType
          required := p.default.isNone
          default := p.default
          description := p.docDescription }))

/-- One use of the `api_method` decorator: the decorated function's name,
the human-readable API name, the description, and the introspected formal
parameters. -/
structure RegisteredMethod where
  methodName : String
  apiName : String
  description : String
  params : List PyParam

/-- The `APIDefinition` built by `api_method` for one decorated function. -/
def apiMethodDefinition (m : RegisteredMethod) : APIDefinition :=
  { name := m.apiName
    description := m.description
    parameters := deriveParameters m.params }

/-- Embedding of `APIRegistry.register`: keys the definition by the
decorated function's name in the class-level dict. -/
def registerApi (apis : List (String × APIDefinition)) (m : RegisteredMethod) :
    List (String × APIDefinition) :=
  setKey apis m.methodName (apiMethodDefinition m)

/-- The registry contents after a sequence of `api_method` registrations,
starting from the empty class-level dict; `APIRegistry.get_all_apis` returns
a copy of exactly this mapping. -/
def registryOf (ms : List RegisteredMethod) : List (String × APIDefinition) :=
  ms.foldl registerApi []

/-- The `APICall` dataclass of `apis/executor.py`. -/
structure APICall where
  method_name : String
  parameters : List (String × PyVal)
  reasoning : String := ""

/-- Result dict built by `APIExecutor.execute_api_call`: both branches set
`success`, the success branch sets `result`, the failure branch sets
`error`, and both set `method` and `parameters`; the orchestrator's own
catch-all branch builds a dict with only `success` and `error`, so the
other keys are `Option`s read back through `.get` with a fallback. -/
structure ExecResultDict where
  success : Bool
  result : Option PyVal := Option.none
  error : Option String := Option.none
  method : Option String := Option.none
  parameters : Option (List (String × PyVal)) := Option.none

/-- A target object for the executor (`api_instance`): `getattr` resolves a
method name to a callable, which receives the supplied keyword arguments
and either returns a value or raises (an `Except.error`). -/
structure APIInstance where
  methods : String → Option (List (String × PyVal) → Except String PyVal)

/-- Embedding of `APIExecutor.execute_api_call`. An `Except.error` of the
whole call is a raised exception: raised for a method name missing from the
registry snapshot (the source's `ValueError`), and for a registered name
the target object lacks (the source's `getattr` is outside the `try`); an
exception from the target callable itself is caught by the `try` and turned
into a `success=False` dict. -/
def executeApiCall (apis : List (String × APIDefinition)) (inst : APIInstance)
    (call : APICall) : Except String ExecResultDict :=
  if (lookupKey apis call.method_name).isNone then
    Except.error ("Unknown API method: " ++ call.method_name)
  else
    match inst.methods call.method_name with
    | Option.none =>
        Except.error ("\x27" ++ "object has no attribute " ++ "\x27" ++
          call.method_name ++ "\x27")
    | some f =>
        Except.ok <|
          match f call.parameters with
          | Except.ok v =>
              { success := true
                result := some v
                method := some call.method_name
                parameters := some call.parameters }
          | Except.error e =>
              { success := false
                error := some e
                method := some call.method_name
                parameters := some call.parameters }

/-- A JSON-Schema property as built by
`BaseFunctionCallPrompt._convert_properties`: a `type` and a `description`. -/
structure PropSchema where
  type : String
  description : String
deriving DecidableEq

/-- Embedding of `BaseFunctionCallPrompt._get_required_params`. -/
def getRequiredParams (apiParameters : List (String × ParamInfo)) : List String :=
  (apiParameters.filter (fun p => p.2.required)).map (fun p => p.1)

/-- Embedding of `BaseFunctionCallPrompt._convert_properties`: every
parameter becomes a property of type `"string"` with the stored description
(present on every registry-built definition, so the source's `.get` default
text never fires for them). -/
def convertProperties (apiParameters : List (String × ParamInfo)) :
    List (String × PropSchema) :=
  apiParameters.map
    (fun p => (p.1, { type := "string", description := p.2.description }))

/-- A provider-native tool/function schema. Anthropic nests the object
schema under `input_schema`, OpenAI under `parameters`; both nested objects
have the same three fields, embedded here uniformly. -/
structure ToolSchema where
  name : String
  description : String
  schemaType : String
  properties : List (String × PropSchema)
  required : List String
deriving DecidableEq

/-- Embedding of `AnthropicFunctionCallPrompt.get_function_definitions`. -/
def anthropicFunctionDefinitions (apiDefinitions : List (String × APIDefinition)) :
    List ToolSchema :=
  apiDefinitions.map
    (fun p =>
      { name := p.1
        description := p.2.description
        schemaType := "object"
        properties := convertProperties p.2.parameters
        required := getRequiredParams p.2.parameters })

/-- Embedding of `OpenAIFunctionCallPrompt.get_function_definitions`. -/
def openaiFunctionDefinitions (apiDefinitions : List (String × APIDefinition)) :
    List ToolSchema :=
  apiDefinitions.map
    (fun p =>
      { name := p.1
        description := p.2.description
        schemaType := "object"
        properties := convertProperties p.2.parameters
        required := getRequiredParams p.2.parameters })

/-- Conversation context passed into provider calls: a dict of auxiliary
string values (`wake_word`, `user_preferences`, `system_prompt`). -/
def Ctx : Type := List (String × String)

/-- Modelled from the spec: a `ToolCall` is one requested invocation emitted
by an AI backend, `\x7bid, name, arguments\x7d`. The orchestrator imports this
type from `base_provider`, but the source file under `src/` is an older
variant that does not declare it. -/
structure ToolCall where
  id : String
  name : String
  arguments : List (String × PyVal)

/-- A per-call record appended by `AIOrchestrator._execute_function_calls`:
a dict holding the tool call's id and the executor's result dict. -/
structure FunctionResult where
  tool_call_id : String
  result : ExecResultDict

/-- A value stored in a response's `entities` dict: either an ordinary
Python value or the list of function results the orchestrator stores under
the key `"function_results"`. -/
inductive EntVal where
  | py (v : PyVal)
  | functionResults (rs : List FunctionResult)

/-- The provider-facing response consumed by the orchestrator. The fields
`text`, `intent`, `confidence`, `entities` and `raw_response` are those of
the `AIResponse` dataclass in `ai/base_provider.py`; the `tool_calls` field
is modelled from the spec (the orchestrator reads `response.tool_calls`,
declared in a provider module that is not under `src/`), defaulting to the
empty list. -/
structure AIResponse where
  text : String
  intent : IntentType
  confidence : ℚ
  tool_calls : List ToolCall := []
  entities : List (String × EntVal) := []
  raw_response : List (String × PyVal) := []

/-- Modelled from the spec: the provider capability contract
(`chat_with_functions`, `simple_chat`, `is_available`). The concrete
Anthropic/OpenAI classes implementing it are not under `src/`, so a
provider is an abstract oracle: each operation either returns a value or
raises (`Except.error`), and `available` is the value of `is_available()`. -/
structure Provider where
  available : Bool
  chat_with_functions : String → List (String × APIDefinition) → Ctx →
    Except String AIResponse
  simple_chat : String → Ctx → Except String String

/-- Modelled from the spec: a provider class as stored in the orchestrator's
`providers` registry; constructing an instance from an AI config dict can
itself raise. -/
structure ProviderClass where
  make : List (String × String) → Except String Provider

/-- The slice of `ConfigManager` state the orchestrator consumes: the
active-provider name stored in the in-memory main config, the provider name
last persisted by `save_config`, the remaining merged AI settings returned
by `get_ai_config`, and the configured wake word. -/
structure ConfigManagerState where
  aiProvider : String
  savedAiProvider : String
  aiSettings : List (String × String)
  wakeWord : Option String

/-- Embedding of `ConfigManager.get_ai_config`: a fresh merged dict whose
`provider` entry is the active-provider name from the main config. -/
def getAIConfig (c : ConfigManagerState) : List (String × String) :=
  setKey c.aiSettings "provider" c.aiProvider

/-- The mutable state of an `AIOrchestrator` object: the provider-class
registry, the primary and fallback provider instances, the lazily-loaded
API components (`api_registry`, `api_executor`, `home_apis`; `__init__`
leaves all three absent, and in the staged source they stay absent because
component initialization always raises, see `initializeApiComponents`),
and the configuration collaborator. -/
structure Orchestrator where
  providers : List (String × ProviderClass)
  current_provider : Option Provider
  fallback_provider : Option Provider
  api_registry : Option (List (String × APIDefinition))
  api_executor : Bool
  home_apis : Option APIInstance
  config : ConfigManagerState

/-- One externally visible call made during an orchestrator turn: a
`chat_with_functions` call on the primary or the fallback provider, a
`simple_chat` call on the primary provider, or an executor invocation for a
named function. Traces of these events make call counts provable. -/
inductive CallEvent where
  | primaryCWF
  | fallbackCWF
  | primarySimple
  | execCall (name : String)
deriving DecidableEq

/-- The fixed response `_get_ai_response_with_functions` returns when every
provider attempt failed. -/
def connectionErrorResponse : AIResponse :=
  { text := "I\x27m having trouble connecting to my AI services right now."
    intent := IntentType.unknown
    confidence := 1/10 }

/-- The fallback half of `AIOrchestrator._get_ai_response_with_functions`:
reached both when the primary provider is absent and when its call raised;
a raise by the fallback is caught and yields the fixed error response. -/
def tryFallbackCWF (o : Orchestrator) (message : String)
    (apiDefinitions : List (String × APIDefinition)) (context : Ctx)
    (tr : List CallEvent) : AIResponse × List CallEvent :=
  match o.fallback_provider with
  | some q =>
      match q.chat_with_functions message apiDefinitions context with
      | Except.ok response => (response, tr ++ [CallEvent.fallbackCWF])
      | Except.error _ => (connectionErrorResponse, tr ++ [CallEvent.fallbackCWF])
  | Option.none => (connectionErrorResponse, tr)

/-- Embedding of `AIOrchestrator._get_ai_response_with_functions`: try the
primary provider once, catching a raise; then the fallback with the same
arguments; otherwise the fixed error response. -/
def getAIResponseWithFunctions (o : Orchestrator) (message : String)
    (apiDefinitions : List (String × APIDefinition)) (context : Ctx) :
    AIResponse × List CallEvent :=
  match o.current_provider with
  | some p =>
      match p.chat_with_functions message apiDefinitions context with
      | Except.ok response => (response, [CallEvent.primaryCWF])
      | Except.error _ =>
          tryFallbackCWF o message apiDefinitions context [CallEvent.primaryCWF]
  | Option.none => tryFallbackCWF o message apiDefinitions context []

/-- Embedding of `AIOrchestrator._execute_function_calls`: each tool call is
run through the executor in order; a raise from the executor (including the
unknown-method `ValueError`) is caught by this function's own `except`
branch and recorded as a dict with only `success=False` and the message. -/
def executeFunctionCalls (apis : List (String × APIDefinition))
    (inst : APIInstance) (toolCalls : List ToolCall) :
    List FunctionResult × List CallEvent :=
  match toolCalls with
  | [] => ([], [])
  | tc :: rest =>
      let r : FunctionResult :=
        match executeApiCall apis inst
            { method_name := tc.name
              parameters := tc.arguments
              reasoning := "Function call from AI" } with
        | Except.ok d => { tool_call_id := tc.id, result := d }
        | Except.error e =>
            { tool_call_id := tc.id, result := { success := false, error := some e } }
      let (rs, tr) := executeFunctionCalls apis inst rest
      (r :: rs, CallEvent.execCall tc.name :: tr)

/-- Embedding of `AIOrchestrator._build_function_results_context`. -/
def buildFunctionResultsContext (functionResults : List FunctionResult) : String :=
  String.intercalate "\n" (functionResults.map (fun fr =>
    let d := fr.result
    if d.success then
      let methodName := d.method.getD "function"
      let result := d.result.getD (PyVal.dict [])
      let resultStr :=
        match result with
        | PyVal.dict kvs =>
            String.intercalate ", " (kvs.map (fun kv => kv.1 ++ ": " ++ pyStr kv.2))
        | v => pyStr v
      "- " ++ methodName ++ "() returned: " ++ resultStr
    else
      "- Function call failed: " ++ (d.error.getD "Unknown error")))

/-- The `format_message` f-string assembled in
`AIOrchestrator._format_function_results_with_ai`. -/
def buildFormatMessage (originalMessage : String)
    (functionResults : List FunctionResult) : String :=
  "I asked: \"" ++ originalMessage ++ "\"\n\n" ++
    "I called the following functions and got these results:\n" ++
    buildFunctionResultsContext functionResults ++
    "\n\nPlease provide a natural, helpful response to my original question using this information."

/-- Embedding of `AIOrchestrator._build_system_content_for_formatting`. -/
def buildSystemContentForFormatting (context : Ctx) : String :=
  let wakeWord := getKeyD context "wake_word" "Assistant"
  "You are " ++ wakeWord ++ ", a helpful home assistant.\n\n" ++
    "I will provide you with the results from function calls I made to answer a user\x27s question. \n" ++
    "Please format these results into a natural, conversational response that directly answers the user\x27s original question.\n\n" ++
    "Key guidelines:\n" ++
    "- Be conversational and helpful\n" ++
    "- Use the function results to provide accurate information\n" ++
    "- Don\x27t mention the technical details of function calls\n" ++
    "- Answer as if you personally retrieved the information"

/-- The bottom, multiple-results section of
`AIOrchestrator._basic_format_function_results`, also reached by
fall-through when a single result was unsuccessful. -/
def basicFormatMulti (functionResults : List FunctionResult) : String :=
  "Here are the results: " ++ String.intercalate ", "
    ((functionResults.filter (fun fr => fr.result.success)).map
      (fun fr => pyStr (fr.result.result.getD (PyVal.dict []))))

/-- Embedding of `AIOrchestrator._basic_format_function_results`. -/
def basicFormatFunctionResults (functionResults : List FunctionResult) : String :=
  match functionResults with
  | [fr] =>
      let d := fr.result
      if d.success then
        let methodName := d.method.getD ""
        let result := d.result.getD (PyVal.dict [])
        match result with
        | PyVal.dict kvs =>
            if methodName = "get_weather" then
              let location := pyStr (getKeyD kvs "location" (PyVal.str "your location"))
              let temperature := pyStr (getKeyD kvs "temperature" (PyVal.str "unknown"))
              let description := pyStr (getKeyD kvs "description" (PyVal.str "unknown conditions"))
              let unitSymbol :=
                match getKeyD kvs "units" (PyVal.str "metric") with
                | PyVal.str s =>
                    if s = "metric" then "°C" else if s = "imperial" then "°F" else "K"
                | _ => "K"
              "The weather in " ++ location ++ " is currently " ++ description ++
                " with a temperature of " ++ temperature ++ unitSymbol ++ "."
            else
              "Here\x27s the result: " ++ pyStr (PyVal.dict kvs)
        | v => "Here\x27s the result: " ++ pyStr v
      else basicFormatMulti [fr]
  | _ => basicFormatMulti functionResults

/-- Embedding of `AIOrchestrator._format_function_results_with_ai`: an empty
result list yields a fixed message; the first unsuccessful result
short-circuits to a direct error message with no AI call; otherwise a
`simple_chat` formatting call is made on the primary provider when present
(the system prompt for it is built from the copied context before the
`system_prompt` key is set, hence from `context` itself), falling back to
the deterministic basic formatter when the call raises or no primary
provider exists. -/
def formatFunctionResultsWithAI (o : Orchestrator)
    (functionResults : List FunctionResult) (originalMessage : String)
    (context : Ctx) : String × List CallEvent :=
  if functionResults.isEmpty then
    ("I couldn\x27t execute any functions to help with your request.", [])
  else
    match functionResults.find? (fun fr => fr.result.success = false) with
    | some fr =>
        ("I encountered an error: " ++ fr.result.error.getD "Unknown error", [])
    | Option.none =>
        let formatMessage := buildFormatMessage originalMessage functionResults
        match o.current_provider with
        | some p =>
            let formatContext :=
              setKey context "system_prompt" (buildSystemContentForFormatting context)
            match p.simple_chat formatMessage formatContext with
            | Except.ok t => (t, [CallEvent.primarySimple])
            | Except.error _ =>
                (basicFormatFunctionResults functionResults, [CallEvent.primarySimple])
        | Option.none => (basicFormatFunctionResults functionResults, [])

/-- The context dict as `AIOrchestrator.chat` prepares it before the
provider call: a missing or empty context becomes the empty dict, and a
configured, non-empty wake word is added under `"wake_word"` (the source's
`if wake_word:` truthiness guard skips `None` and the empty string). -/
def buildChatContext (o : Orchestrator) (context : Option Ctx) : Ctx :=
  let ctx : Ctx :=
    match context with
    | Option.none => []
    | some c => c
  match o.config.wakeWord with
  | some w => if w = "" then ctx else setKey ctx "wake_word" w
  | Option.none => ctx

/-- Message of the `TypeError` raised when `apis/home_apis.py` gets
loaded: its `api_method(...)` decoration passes `trigger_words`, a
keyword that `api_method` in `apis/decorators.py` does not accept. -/
def triggerWordsTypeError : String :=
  "api_method() got an unexpected keyword argument \x27trigger_words\x27"

/-- Embedding of `AIOrchestrator._initialize_api_components`. When the
components are already set the body is skipped; otherwise the `try` block
loads `decorators`, `executor` and `home_apis`, and loading `home_apis`
raises `TypeError` at class-body execution (the `trigger_words` keyword
mismatch). The handler catches only `ImportError`, so the `TypeError`
escapes (`Except.error`) and the components remain unset: in the staged
source initialization never succeeds. -/
def initializeApiComponents (o : Orchestrator) : Except String Orchestrator :=
  match o.api_registry with
  | some _ => Except.ok o
  | Option.none => Except.error triggerWordsTypeError

/-- Embedding of `AIOrchestrator.chat`. The source builds the context,
then calls `_initialize_api_components()` unconditionally *before* its
`try:` block — and in the staged source that call always raises
`TypeError`, which escapes `chat()` (an `Except.error` here, with an
empty call trace: no provider or executor call happens). Only when
initialization is skipped (`api_registry` already set, a state the staged
program itself never reaches) does the two-phase body run; that body is
total because each raising call inside it is caught at its own call site,
so the outer `except` is unreachable from it. The executor's registry
snapshot and the definitions passed to the provider both read the same
class-level registry. -/
def chat (o : Orchestrator) (message : String) (context : Option Ctx) :
    Except String AIResponse × List CallEvent :=
  let ctx := buildChatContext o context
  match initializeApiComponents o with
  | Except.error e => (Except.error e, [])
  | Except.ok o2 =>
      let apiDefinitions := o2.api_registry.getD []
      let (response, tr1) := getAIResponseWithFunctions o2 message apiDefinitions ctx
      match o2.home_apis with
      | some inst =>
          if response.tool_calls.isEmpty = false ∧ o2.api_executor then
            let (functionResults, tr2) :=
              executeFunctionCalls (o2.api_registry.getD []) inst response.tool_calls
            let (formattedText, tr3) :=
              formatFunctionResultsWithAI o2 functionResults message ctx
            (Except.ok { response with
                text := formattedText
                entities := setKey response.entities "function_results"
                  (EntVal.functionResults functionResults) },
              tr1 ++ tr2 ++ tr3)
          else (Except.ok response, tr1)
      | Option.none => (Except.ok response, tr1)

/-- Embedding of `AIOrchestrator.switch_provider`: an unknown provider name
fails before touching any state; otherwise a new provider instance is
constructed from the merged AI config with the requested provider name (a
constructor raise is caught and reported as failure), and only an available
instance replaces the primary provider and persists the choice through the
configuration collaborator. -/
def switchProvider (o : Orchestrator) (providerName : String) :
    Bool × Orchestrator :=
  if (lookupKey o.providers providerName).isNone then (false, o)
  else
    match lookupKey o.providers providerName with
    | Option.none => (false, o)
    | some cls =>
        let aiConfig := setKey (getAIConfig o.config) "provider" providerName
        match cls.make aiConfig with
        | Except.error _ => (false, o)
        | Except.ok newProvider =>
            if newProvider.available then
              (true,
                { o with
                    current_provider := some newProvider
                    config :=
                      { o.config with
                          aiProvider := providerName
                          savedAiProvider := providerName } })
            else (false, o)

/-- Formal parameters of `HomeAPIs.get_weather` as `inspect` reports them
to the decorator: `self`, then `location: str` with no default, `units: str
= "metric"`, `days: int = 1`, with the docstring descriptions that
`extract_param_description` recovers. -/
def getWeatherParams : List PyParam :=
  [ { name := "self", pyType := "str", default := Option.none, docDescription := "" },
    { name := "location", pyType := "str", default := Option.none,
      docDescription := "City name or address (e.g., \"Tampa, FL\")" },
    { name := "units", pyType := "str", default := some (PyVal.str "metric"),
      docDescription := "Temperature units - \"metric\", \"imperial\", or \"kelvin\"" },
    { name := "days", pyType := "int", default := some (PyVal.int 1),
      docDescription := "Number of forecast days (1-7)" } ]

/-- The registration that the `api_method` decoration on
`HomeAPIs.get_weather` spells out (its method name, API name, description
and introspected signature). In the staged source this registration never
executes: the decoration call passes a `trigger_words` keyword that
`api_method` in `apis/decorators.py` does not accept, so importing
`apis/home_apis.py` raises `TypeError` during class-body execution and the
class-level registry stays empty. -/
def getWeatherRegistration : RegisteredMethod :=
  { methodName := "get_weather"
    apiName := "Weather Information"
    description := "Get current weather conditions and forecast for any location"
    params := getWeatherParams }

/-- The registry contents that the declared `get_weather` registration
would produce, used to exercise the executor and the schema generators on
the declared definition set. The staged program's actual class-level
registry remains empty, because the registration import raises (see
`getWeatherRegistration`). -/
def homeRegistry : List (String × APIDefinition) :=
  registryOf [getWeatherRegistration]

/-- Embedding of the body of `HomeAPIs.get_weather` (the mock weather
lookup) as a keyword-argument callable: a call without the required
`location` argument raises the `TypeError` Python would raise. -/
def getWeatherMethod (args : List (String × PyVal)) : Except String PyVal :=
  match lookupKey args "location" with
  | Option.none =>
      Except.error
        "get_weather() missing 1 required positional argument: \x27location\x27"
  | some location =>
      let units := getKeyD args "units" (PyVal.str "metric")
      let days := getKeyD args "days" (PyVal.int 1)
      Except.ok (PyVal.dict
        [ ("location", location)
        , ("temperature", PyVal.int 85)
        , ("description", PyVal.str "sunny")
        , ("forecast", PyVal.str (pyStr days ++ " day forecast"))
        , ("units", units) ])

/-- The `HomeAPIs` target object: `getattr` resolves exactly the method
`get_weather`. -/
def homeAPIsInstance : APIInstance :=
  { methods := fun n => if n = "get_weather" then some getWeatherMethod else Option.none }

/-- A provider stub that answers every call with a fixed response. -/
def stubProvider (resp : AIResponse) : Provider :=
  { available := true
    chat_with_functions := fun _ _ _ => Except.ok resp
    simple_chat := fun _ _ => Except.ok "ok" }

/-- A provider stub whose every call raises. -/
def failingProvider : Provider :=
  { available := true
    chat_with_functions := fun _ _ _ => Except.error "connection error"
    simple_chat := fun _ _ => Except.error "connection error" }

/-- An ordinary conversational response carrying no tool calls. -/
def plainChatResponse : AIResponse :=
  { text := "Hello!", intent := IntentType.chat, confidence := 8/10 }

/-- Configuration collaborator state used by the concrete test fixtures. -/
def baseConfig : ConfigManagerState :=
  { aiProvider := "anthropic"
    savedAiProvider := "anthropic"
    aiSettings := [("anthropic_api_key", "key")]
    wakeWord := Option.none }

/-- A provider class whose constructor reports the backend as unavailable. -/
def unavailableProviderClass : ProviderClass :=
  { make := fun _ => Except.ok
      { available := false
        chat_with_functions := fun _ _ _ => Except.error "provider is not available"
        simple_chat := fun _ _ => Except.error "provider is not available" } }

/-- An orchestrator fixture with the given primary and fallback providers
and the API components set, used to exercise the formatting and
provider-switching paths, which do not involve component initialization. -/
def mkOrchestrator (cur fb : Option Provider) : Orchestrator :=
  { providers :=
      [("anthropic", unavailableProviderClass), ("openai", unavailableProviderClass)]
    current_provider := cur
    fallback_provider := fb
    api_registry := some homeRegistry
    api_executor := true
    home_apis := some homeAPIsInstance
    config := baseConfig }

/-- Fixture for the fallback scenario: raising primary, answering fallback. -/
def witnessFallbackOrch : Orchestrator :=
  mkOrchestrator (some failingProvider) (some (stubProvider plainChatResponse))

/-- Fixture with no provider available at all. -/
def noProviderOrch : Orchestrator :=
  mkOrchestrator Option.none Option.none

/-- State of a freshly constructed `AIOrchestrator` with the given primary
and fallback provider instances: `__init__` leaves `api_registry`,
`api_executor` and `home_apis` unset, and in the staged source they stay
unset for the object's whole lifetime because component initialization
always raises (see `initializeApiComponents`). -/
def freshOrchestrator (cur fb : Option Provider) : Orchestrator :=
  { providers :=
      [("anthropic", unavailableProviderClass), ("openai", unavailableProviderClass)]
    current_provider := cur
    fallback_provider := fb
    api_registry := Option.none
    api_executor := false
    home_apis := Option.none
    config := baseConfig }

section Claims

/-- C10: for every `AIResponse` constructed at the public interface, the
`entities` and `raw_response` fields are never `None` after
`__post_init__`, and an omitted or `None` field becomes an empty mapping. -/
theorem aiResponse_post_init_fields_never_none (r : AIResponseInit) :
    r.postInit.entities ≠ Option.none ∧ r.postInit.raw_response ≠ Option.none ∧
      (r.entities = Option.none → r.postInit.entities = some []) ∧
      (r.raw_response = Option.none → r.postInit.raw_response = some []) := by
  rcases r with ⟨t, i, c, e, w⟩
  cases e <;> cases w <;> simp [AIResponseInit.postInit]

/-- Witness for C10 at a concrete response constructed with both optional
fields omitted. -/
theorem aiResponse_post_init_fields_never_none_witness :
    ({ text := "hi", intent := IntentType.chat, confidence := 1/2 } :
        AIResponseInit).postInit.entities = some [] ∧
      ({ text := "hi", intent := IntentType.chat, confidence := 1/2 } :
        AIResponseInit).postInit.raw_response = some [] := by
  have h := aiResponse_post_init_fields_never_none
    { text := "hi", intent := IntentType.chat, confidence := 1/2 }
  exact ⟨h.2.2.1 rfl, h.2.2.2 rfl⟩

/-- C8: the provider confidence score starts from the base value `0.8` and
is decreased by `0.3` for very short responses, by `0.2` for a truncated
(`length`) finish reason, by `0.4` for a filtered or stopped one, and by
`0.2` for responses containing one of the error-indicator words
case-insensitively; the returned value always lies in `[0.1, 0.95]`. -/
theorem confidence_penalized_and_clamped (t : String) (fr : Option String) :
    calculateResponseConfidence t fr =
      max (1/10) (min (95/100)
        ((8/10 : ℚ)
          - (if t.length < 10 then 3/10 else 0)
          - (match fr with
             | Option.none => 0
             | some r =>
                 if r = "length" then 2/10
                 else if r = "content_filter" ∨ r = "stop_sequence" then 4/10
                 else 0)
          - (if hasErrorIndicator t then 2/10 else 0)))
      ∧ 1/10 ≤ calculateResponseConfidence t fr
      ∧ calculateResponseConfidence t fr ≤ 95/100 := by
  have hfac : (min 1 ((t.length : ℚ)/100) < 1/10) = (t.length < 10) := by
    apply propext
    rw [min_lt_iff]
    constructor
    · rintro (h | h)
      · norm_num at h
      · have h10 : (t.length : ℚ) < 10 := by linarith
        exact_mod_cast h10
    · intro h
      right
      have h10 : (t.length : ℚ) < 10 := by exact_mod_cast h
      linarith
  have hfac5 : (min 1 ((t.length : ℚ)/100) > 5) = False := by
    apply propext
    have hle : min 1 ((t.length : ℚ)/100) ≤ 1 := min_le_left _ _
    constructor
    · intro h
      linarith
    · intro h
      exact h.elim
  have hmain : calculateResponseConfidence t fr =
      max (1/10) (min (95/100)
        ((8/10 : ℚ)
          - (if t.length < 10 then 3/10 else 0)
          - (match fr with
             | Option.none => 0
             | some r =>
                 if r = "length" then 2/10
                 else if r = "content_filter" ∨ r = "stop_sequence" then 4/10
                 else 0)
          - (if hasErrorIndicator t then 2/10 else 0))) := by
    unfold calculateResponseConfidence
    dsimp only
    simp only [hfac, hfac5, if_false]
    cases fr with
    | none => dsimp only; split_ifs <;> norm_num
    | some r => dsimp only; split_ifs <;> norm_num
  refine ⟨hmain, ?_, ?_⟩
  · rw [hmain]
    exact le_max_left _ _
  · rw [hmain]
    exact max_le (by norm_num) (le_trans (min_le_left _ _) (by norm_num))

/-- Required parameters derived by the `api_method` decorator are exactly
the non-`self` parameters declared without a default value. -/
theorem getRequiredParams_deriveParameters (ps : List PyParam) :
    getRequiredParams (deriveParameters ps) =
      (ps.filter (fun p => p.name ≠ "self" ∧ p.default.isNone)).map
        (fun p => p.name) := by
  induction ps with
  | nil => rfl
  | cons p rest ih =>
      by_cases hs : p.name = "self"
      · simp [deriveParameters, getRequiredParams, hs] at ih ⊢
        exact ih
      · by_cases hd : p.default.isNone
        · simp [deriveParameters, getRequiredParams, hs, hd] at ih ⊢
          exact ih
        · simp [deriveParameters, getRequiredParams, hs, hd] at ih ⊢
          exact ih

/-- C5: the Claude-style and GPT-style schema generators produce function
lists with identical name sets (indeed identical schemas), the `required`
array of a registered definition lists exactly its parameters declared
without a default, every property is typed `"string"`, and the empty
registry yields an empty function list from both generators. -/
theorem schema_generators_agree (defs : List (String × APIDefinition))
    (m : RegisteredMethod) :
    (anthropicFunctionDefinitions defs).map (fun t => t.name) =
        (openaiFunctionDefinitions defs).map (fun t => t.name)
      ∧ anthropicFunctionDefinitions defs = openaiFunctionDefinitions defs
      ∧ (∀ t ∈ anthropicFunctionDefinitions defs, ∀ pr ∈ t.properties,
          pr.2.type = "string")
      ∧ getRequiredParams (apiMethodDefinition m).parameters =
          (m.params.filter (fun p => p.name ≠ "self" ∧ p.default.isNone)).map
            (fun p => p.name)
      ∧ anthropicFunctionDefinitions (registryOf []) = []
      ∧ openaiFunctionDefinitions (registryOf []) = [] := by
  refine ⟨rfl, rfl, ?_, getRequiredParams_deriveParameters m.params, rfl, rfl⟩
  intro t ht pr hpr
  simp only [anthropicFunctionDefinitions, List.mem_map] at ht
  obtain ⟨d, _, rfl⟩ := ht
  simp only [convertProperties, List.mem_map] at hpr
  obtain ⟨q, _, rfl⟩ := hpr
  rfl

/-- C3: `execute_api_call` raises exactly for a method name missing from
the registry snapshot, provided the registry and the target object's
method set agree (the invariant the source states for the wiring); for a
registered name, an exception raised by the target callable is caught and
reported as a `success=False` dict with the exception message, never
propagated. -/
theorem executor_raises_iff_unregistered
    (apis : List (String × APIDefinition)) (inst : APIInstance) (call : APICall)
    (hagree : ∀ n, (lookupKey apis n).isSome → (inst.methods n).isSome) :
    ((∃ e, executeApiCall apis inst call = Except.error e) ↔
        (lookupKey apis call.method_name).isNone)
      ∧ (∀ f e, inst.methods call.method_name = some f →
          (lookupKey apis call.method_name).isSome →
          f call.parameters = Except.error e →
          executeApiCall apis inst call = Except.ok
            { success := false
              error := some e
              method := some call.method_name
              parameters := some call.parameters }) := by
  constructor
  · constructor
    · rintro ⟨e, he⟩
      by_contra hreg
      have hsome : (lookupKey apis call.method_name).isSome := by
        cases h : lookupKey apis call.method_name with
        | none => exact absurd (by simp [h]) hreg
        | some _ => simp
      have hm := hagree call.method_name hsome
      unfold executeApiCall at he
      rw [if_neg hreg] at he
      cases hmm : inst.methods call.method_name with
      | none => rw [hmm] at hm; simp at hm
      | some f => rw [hmm] at he; simp at he
    · intro hnone
      refine ⟨"Unknown API method: " ++ call.method_name, ?_⟩
      unfold executeApiCall
      rw [if_pos hnone]
  · intro f e hf hsome hfe
    have hnn : ¬ (lookupKey apis call.method_name).isNone = true := by
      cases h : lookupKey apis call.method_name with
      | none => rw [h] at hsome; simp at hsome
      | some _ => simp [h]
    unfold executeApiCall
    rw [if_neg hnn, hf]
    dsimp only
    rw [hfe]

/-- Witness for C3 on the program's registry and target: the unregistered
name `nonexistent` raises, and a `get_weather` call whose target raises (a
missing required argument) is reported as a `success=False` dict. -/
theorem executor_raises_iff_unregistered_witness :
    (∃ e, executeApiCall homeRegistry homeAPIsInstance
        { method_name := "nonexistent", parameters := [] } = Except.error e)
      ∧ executeApiCall homeRegistry homeAPIsInstance
          { method_name := "get_weather", parameters := [] } = Except.ok
            { success := false
              error := some
                "get_weather() missing 1 required positional argument: \x27location\x27"
              method := some "get_weather"
              parameters := some [] } := by
  have hagree : ∀ n, (lookupKey homeRegistry n).isSome →
      (homeAPIsInstance.methods n).isSome := by
    intro n h
    by_cases hn : "get_weather" = n
    · subst hn
      rfl
    · have hr : lookupKey homeRegistry n =
          if "get_weather" = n then some (apiMethodDefinition getWeatherRegistration)
          else Option.none := rfl
      rw [hr, if_neg hn] at h
      simp at h
  have h1 := executor_raises_iff_unregistered homeRegistry homeAPIsInstance
      { method_name := "nonexistent", parameters := [] } hagree
  have h2 := executor_raises_iff_unregistered homeRegistry homeAPIsInstance
      { method_name := "get_weather", parameters := [] } hagree
  exact ⟨h1.1.mpr rfl, h2.2 getWeatherMethod _ rfl rfl rfl⟩

/-- The trace of `_execute_function_calls` consists exactly of one executor
event per tool call, in order. -/
theorem executeFunctionCalls_trace (apis : List (String × APIDefinition))
    (inst : APIInstance) (tcs : List ToolCall) :
    (executeFunctionCalls apis inst tcs).2 =
      tcs.map (fun tc => CallEvent.execCall tc.name) := by
  induction tcs with
  | nil => rfl
  | cons tc rest ih =>
      unfold executeFunctionCalls
      simp [ih]

/-- The trace of `_format_function_results_with_ai` is empty or a single
`simple_chat` call on the primary provider. -/
theorem formatFunctionResultsWithAI_trace (o : Orchestrator)
    (functionResults : List FunctionResult) (originalMessage : String)
    (context : Ctx) :
    (formatFunctionResultsWithAI o functionResults originalMessage context).2 = []
      ∨ (formatFunctionResultsWithAI o functionResults originalMessage context).2 =
          [CallEvent.primarySimple] := by
  unfold formatFunctionResultsWithAI
  by_cases he : functionResults.isEmpty
  · simp [he]
  · simp only [he, if_false]
    cases functionResults.find? (fun fr => fr.result.success = false) with
    | some fr => simp
    | none =>
        cases o.current_provider with
        | none => simp
        | some p =>
            cases hsc : p.simple_chat (buildFormatMessage originalMessage functionResults)
                (setKey context "system_prompt" (buildSystemContentForFormatting context)) with
            | ok t => simp [hsc]
            | error e => simp [hsc]

/-- The detection-phase fallback logic of
`_get_ai_response_with_functions`: when the primary provider's call
raises, the fallback is called with the same arguments and its value
returned, the primary having been called exactly once. In the staged
source this code is unreachable from a `chat()` turn, because component
initialization raises first (see `chat`). -/
theorem getAIResponseWithFunctions_fallback (o : Orchestrator)
    (message : String) (apiDefinitions : List (String × APIDefinition))
    (context : Ctx) (p q : Provider) (e : String) (r : AIResponse)
    (hp : o.current_provider = some p)
    (hq : o.fallback_provider = some q)
    (hpe : p.chat_with_functions message apiDefinitions context = Except.error e)
    (hqr : q.chat_with_functions message apiDefinitions context = Except.ok r) :
    getAIResponseWithFunctions o message apiDefinitions context =
      (r, [CallEvent.primaryCWF, CallEvent.fallbackCWF]) := by
  unfold getAIResponseWithFunctions tryFallbackCWF
  rw [hp]
  dsimp only
  rw [hpe]
  dsimp only
  rw [hq]
  dsimp only
  rw [hqr]
  rfl

/-- The fixed terminal response of the detection phase when neither
provider reference is present: `UNKNOWN` intent, confidence `0.1`, no
call events. Also unreachable from a `chat()` turn in the staged source. -/
theorem getAIResponseWithFunctions_both_none (o : Orchestrator)
    (message : String) (apiDefinitions : List (String × APIDefinition))
    (context : Ctx)
    (h1 : o.current_provider = Option.none)
    (h2 : o.fallback_provider = Option.none) :
    getAIResponseWithFunctions o message apiDefinitions context =
      (connectionErrorResponse, []) := by
  unfold getAIResponseWithFunctions tryFallbackCWF
  rw [h1]
  dsimp only
  rw [h2]

/-- C1 (code bug): in the staged source a `chat()` turn never reaches the
primary provider at all — for every message and context, `chat()` raises
the component-initialization `TypeError` before the detection phase, with
an empty call trace — so the fallback can never produce the turn's
result. Evaluated on a fresh orchestrator whose primary provider would
raise and whose fallback would answer had the turn ever reached them. -/
theorem chat_turn_raises_before_fallback (message : String) (c : Option Ctx) :
    chat (freshOrchestrator (some failingProvider)
        (some (stubProvider plainChatResponse))) message c =
      (Except.error triggerWordsTypeError, []) := rfl

/-- C2 (code bug): with both provider references absent, `chat()` still
does not return the fixed `UNKNOWN`, confidence-`0.1` result: for every
message and context the staged source raises the component-initialization
`TypeError` first, so no result is returned at all. -/
theorem chat_both_unavailable_still_raises (message : String) (c : Option Ctx) :
    chat (freshOrchestrator Option.none Option.none) message c =
      (Except.error triggerWordsTypeError, []) := rfl

/-- C6: when any function execution result is a failure, the formatting
step returns the direct error message built from the first failing result's
error string (so the error text appears literally in the output), and makes
no `simple_chat` call at all. -/
theorem failing_result_skips_ai_formatting (o : Orchestrator)
    (results : List FunctionResult) (msg : String) (ctx : Ctx)
    (hfail : ∃ fr ∈ results, fr.result.success = false) :
    ∃ fr0, results.find? (fun fr => fr.result.success = false) = some fr0
      ∧ (formatFunctionResultsWithAI o results msg ctx).1 =
          "I encountered an error: " ++ fr0.result.error.getD "Unknown error"
      ∧ (formatFunctionResultsWithAI o results msg ctx).2 = [] := by
  obtain ⟨fr, hin, hsucc⟩ := hfail
  have hne : ¬ (results.isEmpty = true) := by
    cases results with
    | nil => simp at hin
    | cons a l => simp
  have hfind : (results.find? (fun fr => fr.result.success = false)).isSome := by
    apply List.find?_isSome.mpr
    exact ⟨fr, hin, by simp [hsucc]⟩
  obtain ⟨fr0, hf0⟩ := Option.isSome_iff_exists.mp hfind
  refine ⟨fr0, hf0, ?_, ?_⟩
  · unfold formatFunctionResultsWithAI
    rw [if_neg hne, hf0]
  · unfold formatFunctionResultsWithAI
    rw [if_neg hne, hf0]

/-- A failing execution record used as concrete input. -/
def failedResult : FunctionResult :=
  { tool_call_id := "1", result := { success := false, error := some "boom" } }

/-- Witness for C6 at a single failing result with error text `boom`. -/
theorem failing_result_skips_ai_formatting_witness :
    (formatFunctionResultsWithAI noProviderOrch [failedResult] "m" []).1 =
        "I encountered an error: boom"
      ∧ (formatFunctionResultsWithAI noProviderOrch [failedResult] "m" []).2 = [] := by
  obtain ⟨fr0, hf0, hout, htr⟩ := failing_result_skips_ai_formatting noProviderOrch
    [failedResult] "m" [] ⟨failedResult, by simp, rfl⟩
  have heq : fr0 = failedResult := by
    have h2 : ([failedResult].find? (fun fr => fr.result.success = false)) =
        some failedResult := rfl
    rw [h2] at hf0
    exact (Option.some.inj hf0).symm
  rw [heq] at hout
  exact ⟨hout, htr⟩

/-- C7: when every execution succeeded but the second, format-only AI call
raises or no primary provider is present for it, the formatting step
returns the deterministic basic formatter's rendering of the results. -/
theorem formatting_failure_falls_back_to_basic (o : Orchestrator)
    (results : List FunctionResult) (msg : String) (ctx : Ctx)
    (hne : results ≠ [])
    (hall : ∀ fr ∈ results, fr.result.success = true)
    (hnoai : ∀ p t, o.current_provider = some p →
      p.simple_chat (buildFormatMessage msg results)
          (setKey ctx "system_prompt" (buildSystemContentForFormatting ctx)) ≠
        Except.ok t) :
    (formatFunctionResultsWithAI o results msg ctx).1 =
      basicFormatFunctionResults results := by
  have hne2 : ¬ (results.isEmpty = true) := by
    cases results with
    | nil => exact absurd rfl hne
    | cons a l => simp
  have hfind : results.find? (fun fr => fr.result.success = false) = Option.none := by
    apply List.find?_eq_none.mpr
    intro fr hin
    simp [hall fr hin]
  unfold formatFunctionResultsWithAI
  rw [if_neg hne2, hfind]
  cases hcp : o.current_provider with
  | none => rfl
  | some p =>
      dsimp only
      cases hsc : p.simple_chat (buildFormatMessage msg results)
          (setKey ctx "system_prompt" (buildSystemContentForFormatting ctx)) with
      | ok t => exact absurd hsc (hnoai p t hcp)
      | error e => simp [hsc]

/-- A successful weather execution record used as concrete input. -/
def successWeatherResult : FunctionResult :=
  { tool_call_id := "1"
    result := { success := true
                result := some (PyVal.dict [("location", PyVal.str "Tampa")])
                method := some "get_weather"
                parameters := some [] } }

/-- Witness for C7: the primary provider's `simple_chat` raises, so the
basic formatter's output is returned. -/
theorem formatting_failure_falls_back_to_basic_witness :
    (formatFunctionResultsWithAI witnessFallbackOrch [successWeatherResult] "m" []).1 =
      basicFormatFunctionResults [successWeatherResult] := by
  apply formatting_failure_falls_back_to_basic
  · simp
  · intro fr hin
    simp only [List.mem_singleton] at hin
    rw [hin]
    rfl
  · intro p t hp ht
    have hpf : p = failingProvider := by
      have hcp : witnessFallbackOrch.current_provider = some failingProvider := rfl
      rw [hcp] at hp
      exact (Option.some.inj hp).symm
    rw [hpf] at ht
    simp [failingProvider] at ht

/-- C9: switching to a provider name absent from the provider registry
returns failure and leaves the whole orchestrator state — primary,
fallback, and persisted configuration — unchanged. -/
theorem switch_unknown_provider_unchanged (o : Orchestrator) (name : String)
    (h : lookupKey o.providers name = Option.none) :
    switchProvider o name = (false, o) := by
  unfold switchProvider
  simp [h]

/-- Witness for C9 at the provider name `unknown`. -/
theorem switch_unknown_provider_unchanged_witness :
    switchProvider noProviderOrch "unknown" = (false, noProviderOrch) :=
  switch_unknown_provider_unchanged noProviderOrch "unknown" rfl

/-- A detection-phase response carrying one tool call whose name is not in
the registry. -/
def nonexistentToolCallResponse : AIResponse :=
  { text := ""
    intent := IntentType.api_call
    confidence := 9/10
    tool_calls := [{ id := "call_1", name := "nonexistent", arguments := [] }] }

/-- C4 counterexample: at a concrete input — a fresh orchestrator whose
provider would request the unregistered function `nonexistent` — `chat()`
neither returns a populated result nor raises the unknown-function wiring
error: it raises the component-initialization `TypeError`, with an empty
call trace (no provider call and no executor call ever happens), an
externally visible outcome the claim does not allow. -/
theorem chat_propagation_policy_counterexample :
    chat (freshOrchestrator (some (stubProvider nonexistentToolCallResponse))
        Option.none) "weather please" Option.none =
      (Except.error triggerWordsTypeError, []) := rfl

/-- C4 (amended): every `chat()` call in the staged source raises — the
`TypeError` from `_initialize_api_components` (the `trigger_words`
signature mismatch) escapes `chat()` before any provider or executor call
is made (the call trace is empty), so no provider- or executor-raised
exception ever escapes `chat()`, no populated result is returned, and the
escaping error is never the unknown-function wiring raise. Stated for
every orchestrator state with the API components unset, which is every
state the staged program can reach. -/
theorem chat_always_raises_init_typeerror (o : Orchestrator)
    (message : String) (c : Option Ctx)
    (h : o.api_registry = Option.none) :
    chat o message c = (Except.error triggerWordsTypeError, []) := by
  unfold chat initializeApiComponents
  rw [h]

/-- Witness for the amended C4: the hypothesis — `api_registry` unset, as
in every freshly constructed orchestrator — holds of the concrete fixture,
and the conclusion evaluates there. -/
theorem chat_always_raises_init_typeerror_witness :
    (freshOrchestrator Option.none (some failingProvider)).api_registry =
        Option.none
      ∧ chat (freshOrchestrator Option.none (some failingProvider)) "hi"
          Option.none = (Except.error triggerWordsTypeError, []) :=
  ⟨rfl, chat_always_raises_init_typeerror
    (freshOrchestrator Option.none (some failingProvider)) "hi" Option.none rfl⟩

end Claims

end HomeAssistant
